import Mathlib

/-!
Shallow embedding of the bom-radar-card frame/window/scheduler core.

Sources embedded here:
* src/bom-radar-card.ts — the BOM WMTS grid layer (tile reconciliation),
  WMTS KVP URL construction, timestamp generation and formatting;
* src/radar-source.ts — RainViewer snapshot fetch and scheduling helpers;
* src/bom-raster-radar-card.ts (raster card, appended to radar-source.ts in
  this snapshot) — frame window merge/evict, playback advance, retry logic;
* src/config.ts — configuration normalization.

Machine numbers of the TypeScript source are modelled exactly: the decimal
constants are rationals, Math.floor is Int.floor, Math.round is Mathlib
round (both round half toward positive infinity), JS epoch-millisecond
arithmetic is integer arithmetic on ℤ with floor division Int.fdiv.
-/

namespace BomRadar

/-! ## Grid reconciler (src/bom-radar-card.ts) -/

/-- EARTH_HALF_CIRCUMFERENCE = 20037508.342789244 (EPSG:3857 half world). -/
def EARTH_HALF_CIRCUMFERENCE : ℚ := 20037508342789244 / 1000000000

/-- getTileSpan(z) = (2 * EARTH_HALF_CIRCUMFERENCE) / 2^z. -/
def getTileSpan (z : ℕ) : ℚ := 2 * EARTH_HALF_CIRCUMFERENCE / 2 ^ z

/-- One per-zoom entry of the BOM custom TileMatrixSet. -/
structure TileMatrixEntry where
  originX : ℚ
  originY : ℚ
  cols : ℤ
  rows : ℤ
deriving DecidableEq, Repr

/-- BOM_TILE_MATRICES from src/bom-radar-card.ts (zooms 0–8). -/
def BOM_TILE_MATRICES : ℕ → Option TileMatrixEntry
  | 0 => some ⟨11584952, 34168990685578 / 1000000, 1, 1⟩
  | 1 => some ⟨11584952, 14131482342789 / 1000000, 1, 1⟩
  | 2 => some ⟨11584952, 4112728171395 / 1000000, 1, 1⟩
  | 3 => some ⟨11584952, 4112728171395 / 1000000, 2, 2⟩
  | 4 => some ⟨11584952, 1608039628546 / 1000000, 3, 3⟩
  | 5 => some ⟨11584952, 355695357122 / 1000000, 6, 5⟩
  | 6 => some ⟨11584952, -270476778591 / 1000000, 11, 9⟩
  | 7 => some ⟨11584952, -583562846447 / 1000000, 22, 17⟩
  | 8 => some ⟨11584952, -740105880375 / 1000000, 43, 33⟩
  | _ => none

/-- One provider (BOM) tile produced for a viewer tile: grid position plus
the pixel offset of its img element inside the 256×256 viewer tile. -/
structure ProviderTile where
  col : ℤ
  row : ℤ
  offsetX : ℤ
  offsetY : ℤ
deriving DecidableEq, Repr

/-- Inclusive integer range lo..hi as a list (empty when hi < lo). -/
def intRange (lo hi : ℤ) : List ℤ :=
  (List.range (hi + 1 - lo).toNat).map (fun (i : ℕ) => lo + (i : ℤ))

/-- BomRadarGridLayer.createTile: the provider tiles generated for viewer
tile (x, y) at zoom z, in loop order (rows outer, cols inner).  The DOM and
image-loading side effects are not part of the value; the function is total
(no input is an error). -/
def createTile (matrices : ℕ → Option TileMatrixEntry) (z : ℕ) (x y : ℤ) :
    List ProviderTile :=
  match matrices z with
  | none => []
  | some tm =>
    let tileSpan := getTileSpan z
    let leafMinX := -EARTH_HALF_CIRCUMFERENCE + (x : ℚ) * tileSpan
    let leafMaxX := leafMinX + tileSpan
    let leafMaxY := EARTH_HALF_CIRCUMFERENCE - (y : ℚ) * tileSpan
    let leafMinY := leafMaxY - tileSpan
    let firstCol := ⌊(leafMinX - tm.originX) / tileSpan⌋
    let lastCol := ⌊(leafMaxX - tm.originX - 1/100) / tileSpan⌋
    let firstRow := ⌊(tm.originY - leafMaxY) / tileSpan⌋
    let lastRow := ⌊(tm.originY - leafMinY - 1/100) / tileSpan⌋
    (intRange (max 0 firstRow) (min (tm.rows - 1) lastRow)).flatMap fun (row : ℤ) =>
      (intRange (max 0 firstCol) (min (tm.cols - 1) lastCol)).map fun (col : ℤ) =>
        let bomMinX := tm.originX + (col : ℚ) * tileSpan
        let bomMaxY := tm.originY - (row : ℚ) * tileSpan
        { col := col
          row := row
          offsetX := round ((bomMinX - leafMinX) / tileSpan * 256)
          offsetY := round ((leafMaxY - bomMaxY) / tileSpan * 256) }

theorem mem_intRange {lo hi a : ℤ} : a ∈ intRange lo hi ↔ lo ≤ a ∧ a ≤ hi := by
  unfold intRange
  constructor
  · intro hmem
    obtain ⟨i, hi2, rfl⟩ := List.mem_map.mp hmem
    have hlt : i < (hi + 1 - lo).toNat := List.mem_range.mp hi2
    omega
  · intro h
    exact List.mem_map.mpr ⟨(a - lo).toNat, List.mem_range.mpr (by omega), by omega⟩

/-- Membership characterization of createTile in the presence of a matrix
entry: exactly the clipped ranges of the spec, with the spec's offsets. -/
theorem mem_createTile (matrices : ℕ → Option TileMatrixEntry) (z : ℕ)
    (x y : ℤ) (tm : TileMatrixEntry) (h : matrices z = some tm)
    (p : ProviderTile) :
    p ∈ createTile matrices z x y ↔
      (max 0 ⌊((-EARTH_HALF_CIRCUMFERENCE + (x : ℚ) * getTileSpan z) - tm.originX) / getTileSpan z⌋ ≤ p.col ∧
       p.col ≤ min (tm.cols - 1) ⌊((-EARTH_HALF_CIRCUMFERENCE + (x : ℚ) * getTileSpan z + getTileSpan z) - tm.originX - 1/100) / getTileSpan z⌋ ∧
       max 0 ⌊(tm.originY - (EARTH_HALF_CIRCUMFERENCE - (y : ℚ) * getTileSpan z)) / getTileSpan z⌋ ≤ p.row ∧
       p.row ≤ min (tm.rows - 1) ⌊(tm.originY - (EARTH_HALF_CIRCUMFERENCE - (y : ℚ) * getTileSpan z - getTileSpan z) - 1/100) / getTileSpan z⌋ ∧
       p.offsetX = round (((tm.originX + (p.col : ℚ) * getTileSpan z) - (-EARTH_HALF_CIRCUMFERENCE + (x : ℚ) * getTileSpan z)) / getTileSpan z * 256) ∧
       p.offsetY = round (((EARTH_HALF_CIRCUMFERENCE - (y : ℚ) * getTileSpan z) - (tm.originY - (p.row : ℚ) * getTileSpan z)) / getTileSpan z * 256)) := by
  simp only [createTile, h, List.mem_flatMap, List.mem_map, mem_intRange]
  constructor
  · rintro ⟨row, ⟨hr1, hr2⟩, col, ⟨hc1, hc2⟩, rfl⟩
    exact ⟨hc1, hc2, hr1, hr2, rfl, rfl⟩
  · rintro ⟨hc1, hc2, hr1, hr2, hx, hy⟩
    refine ⟨p.row, ⟨hr1, hr2⟩, p.col, ⟨hc1, hc2⟩, ?_⟩
    obtain ⟨pc, pr, pox, poy⟩ := p
    simp only at hx hy hc1 hc2 hr1 hr2 ⊢
    rw [hx, hy]

theorem createTile_none (matrices : ℕ → Option TileMatrixEntry) (z : ℕ)
    (x y : ℤ) (h : matrices z = none) : createTile matrices z x y = [] := by
  unfold createTile
  rw [h]

theorem getTileSpan_pos (z : ℕ) : 0 < getTileSpan z := by
  unfold getTileSpan EARTH_HALF_CIRCUMFERENCE
  positivity

theorem intRange_clip_len_le_one {a b : ℤ} :
    (intRange (max 0 a) (min 0 b)).length ≤ 1 := by
  unfold intRange
  rw [List.length_map, List.length_range]
  omega

theorem flatMap_len_le_one {l : List ℤ} {f : ℤ → List ProviderTile}
    (hl : l.length ≤ 1) (hf : ∀ a, (f a).length ≤ 1) :
    (l.flatMap f).length ≤ 1 := by
  match l with
  | [] => simp
  | [a] => simpa using hf a
  | a :: b :: t => simp at hl

/-- Rounding ((u / S) * 256) stays within [-256, 256] whenever -S < u < S. -/
theorem round_offset_bound {u S : ℚ} (hS : 0 < S) (h1 : -S < u) (h2 : u < S) :
    -256 ≤ round (u / S * 256) ∧ round (u / S * 256) ≤ 256 := by
  have hu1 : -1 < u / S := by
    rw [lt_div_iff hS]
    linarith
  have hu2 : u / S < 1 := by
    rw [div_lt_one hS]
    exact h2
  constructor
  · rw [round_eq, Int.le_floor]
    push_cast
    nlinarith
  · rw [round_eq]
    have : ⌊u / S * 256 + 1 / 2⌋ < 257 := by
      rw [Int.floor_lt]
      push_cast
      nlinarith
    omega

/-- For a 1×1 provider grid a viewer tile yields at most one provider tile,
and any yielded offset lies in [-256, 256] on each axis. -/
theorem createTile_one_by_one (matrices : ℕ → Option TileMatrixEntry)
    (z : ℕ) (x y : ℤ) (tm : TileMatrixEntry) (h : matrices z = some tm)
    (hc : tm.cols = 1) (hr : tm.rows = 1) :
    (createTile matrices z x y).length ≤ 1 ∧
    ∀ p ∈ createTile matrices z x y,
      (-256 ≤ p.offsetX ∧ p.offsetX ≤ 256) ∧
      (-256 ≤ p.offsetY ∧ p.offsetY ≤ 256) := by
  constructor
  · simp only [createTile, h, hc, hr]
    apply flatMap_len_le_one
    · simpa using intRange_clip_len_le_one
    · intro a
      rw [List.length_map]
      simpa using intRange_clip_len_le_one
  · intro p hp
    rw [mem_createTile matrices z x y tm h p] at hp
    obtain ⟨hc1, hc2, hr1, hr2, hx, hy⟩ := hp
    rw [hc] at hc2
    rw [hr] at hr2
    have hcol0 : p.col = 0 := by
      simp only [max_le_iff, le_min_iff] at hc1 hc2
      omega
    have hrow0 : p.row = 0 := by
      simp only [max_le_iff, le_min_iff] at hr1 hr2
      omega
    have hS := getTileSpan_pos z
    set S := getTileSpan z with hSdef
    set L := -EARTH_HALF_CIRCUMFERENCE + (x : ℚ) * S with hLdef
    set T := EARTH_HALF_CIRCUMFERENCE - (y : ℚ) * S with hTdef
    rw [hcol0] at hc1 hc2 hx
    rw [hrow0] at hr1 hr2 hy
    have hfc : ⌊(L - tm.originX) / S⌋ ≤ 0 := (max_le_iff.mp hc1).2
    have hlc : (0 : ℤ) ≤ ⌊(L + S - tm.originX - 1/100) / S⌋ := (le_min_iff.mp hc2).2
    have hfr : ⌊(tm.originY - T) / S⌋ ≤ 0 := (max_le_iff.mp hr1).2
    have hlr : (0 : ℤ) ≤ ⌊(tm.originY - (T - S) - 1/100) / S⌋ := (le_min_iff.mp hr2).2
    have qc1 : (L - tm.originX) / S < 1 := by
      have := Int.floor_lt.mp (lt_of_le_of_lt hfc Int.zero_lt_one)
      exact_mod_cast this
    have qc2 : (0 : ℚ) ≤ (L + S - tm.originX - 1/100) / S := by
      have := Int.le_floor.mp hlc
      exact_mod_cast this
    have qr1 : (tm.originY - T) / S < 1 := by
      have := Int.floor_lt.mp (lt_of_le_of_lt hfr Int.zero_lt_one)
      exact_mod_cast this
    have qr2 : (0 : ℚ) ≤ (tm.originY - (T - S) - 1/100) / S := by
      have := Int.le_floor.mp hlr
      exact_mod_cast this
    have cc1 : L - tm.originX < S := (div_lt_one hS).mp qc1
    have cc2 : 0 ≤ L + S - tm.originX - 1/100 := by
      have := (le_div_iff hS).mp qc2
      linarith
    have cr1 : tm.originY - T < S := (div_lt_one hS).mp qr1
    have cr2 : 0 ≤ tm.originY - (T - S) - 1/100 := by
      have := (le_div_iff hS).mp qr2
      linarith
    have ex : p.offsetX = round ((tm.originX - L) / S * 256) := by
      simpa using hx
    have ey : p.offsetY = round ((T - tm.originY) / S * 256) := by
      simpa using hy
    rw [ex, ey]
    exact ⟨round_offset_bound hS (by linarith) (by linarith),
           round_offset_bound hS (by linarith) (by linarith)⟩

theorem bom00_mem : (⟨0, 0, 202, -90⟩ : ProviderTile) ∈ createTile BOM_TILE_MATRICES 0 0 0 := by
  rw [mem_createTile BOM_TILE_MATRICES 0 0 0 ⟨11584952, 34168990685578/1000000, 1, 1⟩ rfl]
  refine ⟨?_, ?_, ?_, ?_, ?_, ?_⟩
  · simp only [max_le_iff]
    refine ⟨le_refl 0, ?_⟩
    exact Int.lt_add_one_iff.mp (Int.floor_lt.mpr (by norm_num [getTileSpan, EARTH_HALF_CIRCUMFERENCE]))
  · simp only [le_min_iff]
    exact ⟨by norm_num, Int.le_floor.mpr (by norm_num [getTileSpan, EARTH_HALF_CIRCUMFERENCE])⟩
  · simp only [max_le_iff]
    refine ⟨le_refl 0, ?_⟩
    exact Int.lt_add_one_iff.mp (Int.floor_lt.mpr (by norm_num [getTileSpan, EARTH_HALF_CIRCUMFERENCE]))
  · simp only [le_min_iff]
    exact ⟨by norm_num, Int.le_floor.mpr (by norm_num [getTileSpan, EARTH_HALF_CIRCUMFERENCE])⟩
  · rw [eq_comm, round_eq, Int.floor_eq_iff]
    constructor
    · norm_num [getTileSpan, EARTH_HALF_CIRCUMFERENCE]
    · norm_num [getTileSpan, EARTH_HALF_CIRCUMFERENCE]
  · rw [eq_comm, round_eq, Int.floor_eq_iff]
    constructor
    · norm_num [getTileSpan, EARTH_HALF_CIRCUMFERENCE]
    · norm_num [getTileSpan, EARTH_HALF_CIRCUMFERENCE]

/-! ## WMTS timestamps and KVP URL (src/bom-radar-card.ts)

JS Date UTC accessors are modelled by the standard proleptic-Gregorian
civil-from-days conversion on epoch milliseconds. -/

/-- String(n).padStart(2, the zero digit) for the nonnegative calendar
components used by the formatter. -/
def pad2 (n : ℤ) : String :=
  if n < 10 then "0" ++ toString n else toString n

/-- Days-since-epoch to (year, month 1..12, day 1..31), proleptic Gregorian. -/
def civilFromDays (z : ℤ) : ℤ × ℤ × ℤ :=
  let z2 := z + 719468
  let era := z2.fdiv 146097
  let doe := z2 - era * 146097
  let yoe := (doe - doe.fdiv 1460 + doe.fdiv 36524 - doe.fdiv 146096).fdiv 365
  let y := yoe + era * 400
  let doy := doe - (365 * yoe + yoe.fdiv 4 - yoe.fdiv 100)
  let mp := (5 * doy + 2).fdiv 153
  let d := doy - (153 * mp + 2).fdiv 5 + 1
  let m := mp + (if mp < 10 then 3 else -9)
  (if m ≤ 2 then y + 1 else y, m, d)

/-- Date.prototype.getUTCFullYear on epoch milliseconds. -/
def getUTCFullYear (t : ℤ) : ℤ := (civilFromDays (t.fdiv 86400000)).1

/-- Date.prototype.getUTCMonth (0-based) on epoch milliseconds. -/
def getUTCMonth (t : ℤ) : ℤ := (civilFromDays (t.fdiv 86400000)).2.1 - 1

/-- Date.prototype.getUTCDate on epoch milliseconds. -/
def getUTCDate (t : ℤ) : ℤ := (civilFromDays (t.fdiv 86400000)).2.2

/-- Date.prototype.getUTCHours on epoch milliseconds. -/
def getUTCHours (t : ℤ) : ℤ := (t.emod 86400000).fdiv 3600000

/-- Date.prototype.getUTCMinutes on epoch milliseconds. -/
def getUTCMinutes (t : ℤ) : ℤ := (t.emod 3600000).fdiv 60000

/-- Date.prototype.getUTCSeconds on epoch milliseconds. -/
def getUTCSeconds (t : ℤ) : ℤ := (t.emod 60000).fdiv 1000

/-- BomRadarCard.formatWmtsTimestamp: renders the given instant with an
explicit zero seconds field, as the source template string does. -/
def formatWmtsTimestamp (t : ℤ) : String :=
  toString (getUTCFullYear t) ++ "-" ++ pad2 (getUTCMonth t + 1) ++ "-" ++
    pad2 (getUTCDate t) ++ "T" ++ pad2 (getUTCHours t) ++ ":" ++
    pad2 (getUTCMinutes t) ++ ":00Z"

/-- BomRadarCard.getRadarCapabilities, timestamp-list part: round now minus
five minutes down to the previous 5-minute mark and walk backwards. -/
def getRadarCapabilitiesTimestamps (nowMs : ℤ) (frame_count : ℕ) : List String :=
  let now := nowMs - 5 * 60 * 1000
  let latestMs := (now.fdiv (5 * 60 * 1000)) * (5 * 60 * 1000)
  let count := max frame_count 12 + 4
  ((List.range count).reverse).map fun (i : ℕ) =>
    formatWmtsTimestamp (latestMs - (i : ℤ) * (5 * 60 * 1000))

def isUnreservedUriChar (c : Char) : Bool :=
  c.isAlphanum || c == Char.ofNat 45 || c == Char.ofNat 95 || c == Char.ofNat 46 ||
    c == Char.ofNat 33 || c == Char.ofNat 126 || c == Char.ofNat 42 ||
    c == Char.ofNat 39 || c == Char.ofNat 40 || c == Char.ofNat 41

def uriHexDigit (n : ℕ) : Char :=
  if n < 10 then Char.ofNat (48 + n) else Char.ofNat (55 + n)

def percentEncodeChar (c : Char) : String :=
  "%" ++ String.singleton (uriHexDigit (c.toNat / 16)) ++
    String.singleton (uriHexDigit (c.toNat % 16))

/-- encodeURIComponent restricted to one-byte (ASCII) strings, which covers
every string the card encodes (WMTS timestamps). -/
def encodeURIComponent (s : String) : String :=
  s.data.foldl
    (fun acc c =>
      acc ++ (if isUnreservedUriChar c then String.singleton c else percentEncodeChar c))
    ""

def WMTS_KVP_BASE : String := "https://api.bom.gov.au/apikey/v1/mapping/timeseries/wmts"

def WMTS_LAYER : String := "atm_surf_air_precip_reflectivity_dbz"

def WMTS_TILE_MATRIX_SET : String := "GoogleMapsCompatible_BoM"

/-- bomKvpUrl from src/bom-radar-card.ts. -/
def bomKvpUrl (z : ℕ) (row col : ℤ) (time : String) : String :=
  WMTS_KVP_BASE ++ "?SERVICE=WMTS&REQUEST=GetTile&VERSION=1.0.0" ++
    "&LAYER=" ++ WMTS_LAYER ++ "&STYLE=default&FORMAT=image/png" ++
    "&TILEMATRIXSET=" ++ WMTS_TILE_MATRIX_SET ++
    "&TILEMATRIX=" ++ toString z ++ "&TILEROW=" ++ toString row ++
    "&TILECOL=" ++ toString col ++ "&TIME=" ++ encodeURIComponent time

/-! ## RainViewer radar source (src/radar-source.ts) -/

def pad3 (n : ℤ) : String :=
  if n < 10 then "00" ++ toString n
  else if n < 100 then "0" ++ toString n
  else toString n

/-- Date.prototype.toISOString on epoch milliseconds. -/
def toISOString (t : ℤ) : String :=
  toString (getUTCFullYear t) ++ "-" ++ pad2 (getUTCMonth t + 1) ++ "-" ++
    pad2 (getUTCDate t) ++ "T" ++ pad2 (getUTCHours t) ++ ":" ++
    pad2 (getUTCMinutes t) ++ ":" ++ pad2 (getUTCSeconds t) ++ "." ++
    pad3 (t.emod 1000) ++ "Z"

structure RadarFrame where
  id : String
  timestampIso : String
  timeMs : ℤ
  path : String
deriving DecidableEq, Repr

structure RadarSnapshot where
  host : String
  frames : List RadarFrame
  latestTimeMs : ℤ
deriving DecidableEq, Repr

structure RainviewerFrame where
  time : ℤ
  path : String
deriving DecidableEq, Repr

structure RainviewerRadar where
  past : Option (List RainviewerFrame) := none
deriving DecidableEq, Repr

structure RainviewerApiResponse where
  host : Option String := none
  radar : Option RainviewerRadar := none
deriving DecidableEq, Repr

/-- Outcome of the fetch call: the promise rejects (network error) or a
response arrives with ok flag, status and parsed JSON body. -/
inductive FetchOutcome
  | reject
  | response (ok : Bool) (status : ℤ) (data : RainviewerApiResponse)
deriving DecidableEq, Repr

def RAINVIEWER_DEFAULT_HOST : String := "https://tilecache.rainviewer.com"

/-- fetchRadarSnapshot from src/radar-source.ts: errors on rejected fetch,
non-ok response, and empty frame list; otherwise the published frames
oldest→newest with the newest frame timestamp. -/
def fetchRadarSnapshot (outcome : FetchOutcome) : Except String RadarSnapshot :=
  match outcome with
  | .reject => .error "fetch rejected"
  | .response ok status data =>
    if !ok then .error ("RainViewer API returned " ++ toString status)
    else
      let host := data.host.getD RAINVIEWER_DEFAULT_HOST
      let rawFrames := (data.radar.bind RainviewerRadar.past).getD []
      if rawFrames.isEmpty then .error "No radar frames available"
      else
        let frames := rawFrames.map fun frame =>
          let timeMs := frame.time * 1000
          let timestampIso := toISOString timeMs
          RadarFrame.mk timestampIso timestampIso timeMs frame.path
        .ok ⟨host, frames, ((frames.getLast?).map RadarFrame.timeMs).getD 0⟩

/-- getNextSnapshotDelayMs from src/radar-source.ts. -/
def getNextSnapshotDelayMs (latestTimeMs nowMs : ℤ) : ℤ :=
  max (latestTimeMs + 10 * 60 * 1000 + 15 * 1000 - nowMs) 5000

/-- getRetryDelayMs from src/radar-source.ts. -/
def getRetryDelayMs (retryCount : ℕ) : ℤ :=
  min (5000 * 2 ^ retryCount) 60000

/-! ## Frame window and playback (raster card) -/

structure Frame where
  id : String
  timestampIso : String
  path : String
deriving DecidableEq, Repr

def RadarFrame.toFrame (f : RadarFrame) : Frame := ⟨f.id, f.timestampIso, f.path⟩

/-- The raster card's frame-window state: this.radarFrames, this.layerIds
(kept in lockstep) and this.frameIndex. -/
structure CardFrames where
  radarFrames : List Frame
  layerIds : List String
  frameIndex : ℕ
deriving DecidableEq, Repr

/-- BomRasterRadarCard.addFrame (map-layer side effect dropped). -/
def addFrame (st : CardFrames) (frame : Frame) : CardFrames :=
  { st with
    radarFrames := st.radarFrames ++ [frame]
    layerIds := st.layerIds ++ [frame.id] }

/-- BomRasterRadarCard.replaceFrames. -/
def replaceFrames (frames : List Frame) : CardFrames :=
  let st1 := frames.foldl addFrame ⟨[], [], 0⟩
  { st1 with
    frameIndex := if 0 < st1.radarFrames.length then st1.radarFrames.length - 1 else 0 }

/-- The while-loop of BomRasterRadarCard.mergeNewFrames: shift radarFrames
and layerIds while over capacity, decrementing frameIndex when positive
(ℕ truncated subtraction is exactly the guarded decrement). -/
def evictLoop (frameCount : ℕ) (st : CardFrames) : CardFrames :=
  if h : frameCount < st.radarFrames.length then
    evictLoop frameCount ⟨st.radarFrames.tail, st.layerIds.tail, st.frameIndex - 1⟩
  else st
termination_by st.radarFrames.length
decreasing_by
  simp only [List.length_tail]
  omega

/-- framesToAdd selection of BomRasterRadarCard.mergeNewFrames
(findIndex -1 and the ternary collapsed into Option). -/
def mergeFramesToAddCode (st : CardFrames) (allFrames : List Frame)
    (frameCount : ℕ) : List Frame :=
  match st.radarFrames.getLast? with
  | some last =>
    match allFrames.findIdx? (fun f => f.id == last.id) with
    | some k => allFrames.drop (k + 1)
    | none => allFrames.drop (allFrames.length - frameCount)
  | none => allFrames.drop (allFrames.length - frameCount)

/-- BomRasterRadarCard.mergeNewFrames. -/
def mergeNewFrames (st : CardFrames) (allFrames : List Frame)
    (frameCount : ℕ) : CardFrames :=
  let framesToAdd := mergeFramesToAddCode st allFrames frameCount
  if framesToAdd.isEmpty then st
  else
    let st1 := framesToAdd.foldl addFrame st
    let st2 := evictLoop frameCount st1
    { st2 with
      frameIndex := if 0 < st2.radarFrames.length then st2.radarFrames.length - 1 else 0 }

/-- The optional playback/refresh fields of the card config that the
schedulers read through the ?? defaults. -/
structure CardConfig where
  frame_count : Option ℕ := none
  frame_delay : Option ℤ := none
  restart_delay : Option ℤ := none
deriving DecidableEq, Repr

/-- BomRasterRadarCard.scheduleNextFrame: the armed timer delay, none when
the window has at most one frame. -/
def scheduleNextFrame (framesLength : ℕ) (delayMs : ℤ) : Option ℤ :=
  if framesLength ≤ 1 then none else some delayMs

/-- BomRasterRadarCard.advanceFrame: the new window state and the delay of
the timer armed afterwards. -/
def advanceFrame (cfg : CardConfig) (st : CardFrames) : CardFrames × Option ℤ :=
  if st.radarFrames.length = 0 then (st, none)
  else
    let newIndex := (st.frameIndex + 1) % st.radarFrames.length
    let st2 := { st with frameIndex := newIndex }
    let nextDelay :=
      if newIndex = st.radarFrames.length - 1 then cfg.restart_delay.getD 1000
      else cfg.frame_delay.getD 250
    (st2, scheduleNextFrame st2.radarFrames.length nextDelay)

/-- BomRasterRadarCard.scheduleRetry: the armed delay and the incremented
retry counter. -/
def scheduleRetry (retryCount : ℕ) : ℤ × ℕ :=
  (getRetryDelayMs retryCount, retryCount + 1)

structure CardState where
  frames : CardFrames
  retryCount : ℕ
  radarHost : String
deriving DecidableEq, Repr

inductive RefreshEffect
  | armSnapshot (delayMs : ℤ) (frameTimer : Option ℤ)
  | armRetry (delayMs : ℤ)
deriving DecidableEq, Repr

/-- JS Array.prototype.slice(-n): the whole array when n = 0, else the last
n elements. -/
def jsSliceLast {α : Type} (l : List α) (n : ℕ) : List α :=
  if n = 0 then l else l.drop (l.length - n)

/-- BomRasterRadarCard.refreshRadarSnapshot: on a failed fetch the window is
untouched and a retry is armed; on success the window is replaced (first
load or explicit reset) or merged, the retry counter cleared, and the next
snapshot poll plus frame timer armed. -/
def refreshRadarSnapshot (cfg : CardConfig) (st : CardState)
    (outcome : FetchOutcome) (resetFrames : Bool) (nowMs : ℤ) :
    CardState × RefreshEffect :=
  match fetchRadarSnapshot outcome with
  | .error _ =>
    let armed := scheduleRetry st.retryCount
    ({ st with retryCount := armed.2 }, .armRetry armed.1)
  | .ok snapshot =>
    let frameCount := cfg.frame_count.getD 7
    let newFrames :=
      if resetFrames || st.frames.radarFrames.isEmpty then
        replaceFrames (jsSliceLast (snapshot.frames.map RadarFrame.toFrame) frameCount)
      else
        mergeNewFrames st.frames (snapshot.frames.map RadarFrame.toFrame) frameCount
    ({ frames := newFrames, retryCount := 0, radarHost := snapshot.host },
     .armSnapshot (getNextSnapshotDelayMs snapshot.latestTimeMs nowMs)
       (scheduleNextFrame newFrames.radarFrames.length (cfg.restart_delay.getD 1000)))

/-! ## Configuration normalization (src/config.ts) -/

/-- Raw card configuration.  A numeric field is `none` when it is absent or
when Number(value) is not finite, mirroring toFiniteNumber's filtering;
a string field is `none` when absent or not a string. -/
structure RawConfig where
  entity : Option String := none
  card_title : Option String := none
  hide_header : Option Bool := none
  map_style : Option String := none
  zoom_level : Option ℚ := none
  show_marker : Option Bool := none
  show_zoom : Option Bool := none
  show_scale : Option Bool := none
  show_recenter : Option Bool := none
  frame_count : Option ℚ := none
  frame_delay : Option ℚ := none
  restart_delay : Option ℚ := none
  overlay_transparency : Option ℚ := none
deriving DecidableEq, Repr

/-- CARD_TYPE from src/const.ts (only its value is used here; the const
module is not part of the snapshot but the type literal appears in
src/types.ts). -/
def CARD_TYPE : String := "custom:bom-raster-radar-card"

/-- toFiniteNumber from src/config.ts; the JS Number coercion and finiteness
test are absorbed into the Option input representation. -/
def toFiniteNumber (value : Option ℚ) : Option ℚ := value

/-- clamp from src/config.ts: Math.min(max, Math.max(min, value)). -/
def clamp (value lo hi : ℚ) : ℚ := min hi (max lo value)

/-- sanitizeMapStyle from src/config.ts. -/
def sanitizeMapStyle (value : Option String) : String :=
  if value == some "Dark" then "Dark" else "Light"

/-- JS WhiteSpace/LineTerminator code points recognized by
String.prototype.trim (the ones relevant to config strings). -/
def isJsWhitespace (c : Char) : Bool :=
  c.toNat == 32 || c.toNat == 9 || c.toNat == 10 || c.toNat == 11 ||
    c.toNat == 12 || c.toNat == 13 || c.toNat == 160 || c.toNat == 65279

def trimLeftChars : List Char → List Char
  | [] => []
  | c :: cs => if isJsWhitespace c then trimLeftChars cs else c :: cs

/-- String.prototype.trim: strip leading and trailing whitespace. -/
def jsTrim (s : String) : String :=
  String.mk ((trimLeftChars (trimLeftChars s.data).reverse).reverse)

/-- sanitizeEntity from src/config.ts: trim when a string, else empty. -/
def sanitizeEntity (value : Option String) : String := jsTrim (value.getD "")

structure NormalizeConfigOptions where
  requireEntity : Bool := false
deriving DecidableEq, Repr

structure BomRasterRadarCardConfig where
  type : String
  entity : String
  card_title : Option String
  hide_header : Bool
  map_style : String
  zoom_level : ℚ
  show_marker : Bool
  show_zoom : Bool
  show_scale : Bool
  show_recenter : Bool
  frame_count : ℚ
  frame_delay : ℚ
  restart_delay : ℚ
  overlay_transparency : ℚ
deriving DecidableEq, Repr

/-- normalizeConfig from src/config.ts; the throw is an Except.error. -/
def normalizeConfig (config : RawConfig) (options : NormalizeConfigOptions) :
    Except String BomRasterRadarCardConfig :=
  let entity := sanitizeEntity config.entity
  if options.requireEntity && entity.length == 0 then
    .error "Required configuration missing: entity must be set to a device_tracker or person entity."
  else
    let zoom := toFiniteNumber config.zoom_level
    let frameCount := toFiniteNumber config.frame_count
    let frameDelay := toFiniteNumber config.frame_delay
    let restartDelay := toFiniteNumber config.restart_delay
    let overlayTransparency := toFiniteNumber config.overlay_transparency
    .ok
      { type := CARD_TYPE
        entity := entity
        card_title :=
          match config.card_title with
          | some s => if 0 < (jsTrim s).length then some s else none
          | none => none
        hide_header := config.hide_header == some true
        map_style := sanitizeMapStyle config.map_style
        zoom_level :=
          match zoom with
          | some q => clamp ((round q : ℤ) : ℚ) 3 10
          | none => 8
        show_marker := config.show_marker != some false
        show_zoom := config.show_zoom != some false
        show_scale := config.show_scale != some false
        show_recenter := config.show_recenter != some false
        frame_count :=
          match frameCount with
          | some q => clamp ((round q : ℤ) : ℚ) 1 24
          | none => 7
        frame_delay :=
          match frameDelay with
          | some q => clamp ((round q : ℤ) : ℚ) 100 5000
          | none => 250
        restart_delay :=
          match restartDelay with
          | some q => clamp ((round q : ℤ) : ℚ) 100 10000
          | none => 1000
        overlay_transparency :=
          match overlayTransparency with
          | some q => clamp q 0 90
          | none => 0 }

theorem foldl_addFrame (fs : List Frame) (st : CardFrames) :
    fs.foldl addFrame st =
      ⟨st.radarFrames ++ fs, st.layerIds ++ fs.map Frame.id, st.frameIndex⟩ := by
  induction fs generalizing st with
  | nil =>
    cases st
    simp
  | cons f t ih =>
    rw [List.foldl_cons, ih]
    simp [addFrame]

theorem evictLoop_spec (frameCount : ℕ) (st : CardFrames) :
    evictLoop frameCount st =
      ⟨st.radarFrames.drop (st.radarFrames.length - frameCount),
       st.layerIds.drop (st.radarFrames.length - frameCount),
       st.frameIndex - (st.radarFrames.length - frameCount)⟩ := by
  induction st using evictLoop.induct frameCount with
  | case1 st h ih =>
    rw [evictLoop, dif_pos h, ih]
    dsimp only
    rw [CardFrames.mk.injEq]
    simp only [← List.drop_one, List.drop_drop, List.length_drop]
    refine ⟨?_, ?_, ?_⟩
    · congr 1
      omega
    · congr 1
      omega
    · omega
  | case2 st h =>
    rw [evictLoop, dif_neg h]
    have hz : st.radarFrames.length - frameCount = 0 := by omega
    rw [hz]
    cases st
    simp

/-- findIdx? of a decomposed list whose first hit is the separator. -/
theorem findIdx?_first_hit (p : Frame → Bool) (pre : List Frame) (w : Frame)
    (post : List Frame) (hpre : ∀ x ∈ pre, p x = false) (hw : p w = true) :
    ∀ i : ℕ, List.findIdx? p (pre ++ w :: post) i = some (pre.length + i) := by
  induction pre with
  | nil =>
    intro i
    simp [List.findIdx?_cons, hw]
  | cons a t ih =>
    intro i
    rw [List.cons_append, List.findIdx?_cons, hpre a (List.mem_cons_self a t),
      if_neg (by simp)]
    rw [ih (fun x hx => hpre x (List.mem_cons_of_mem a hx)) (i + 1)]
    congr 1
    simp only [List.length_cons]
    omega

/-- mergeFramesToAddCode when the newest id's first occurrence splits the
provider list: exactly the frames strictly after it are selected. -/
theorem mergeFramesToAddCode_found (st : CardFrames) (frameCount : ℕ)
    (last : Frame) (hlast : st.radarFrames.getLast? = some last)
    (pre : List Frame) (w : Frame) (post : List Frame)
    (hw : w.id = last.id) (hpre : ∀ f ∈ pre, f.id ≠ last.id) :
    mergeFramesToAddCode st (pre ++ w :: post) frameCount = post := by
  unfold mergeFramesToAddCode
  rw [hlast]
  dsimp only
  rw [findIdx?_first_hit (fun f => f.id == last.id) pre w post
    (fun x hx => by simpa using hpre x hx) (by simp [hw]) 0]
  dsimp only
  rw [show pre ++ w :: post = (pre ++ [w]) ++ post by simp]
  have hlen : pre.length + 0 + 1 = (pre ++ [w]).length := by
    simp
  rw [List.drop_append_of_le_length (by simp), hlen, List.drop_length,
    List.nil_append]

/-- mergeFramesToAddCode when the newest id does not occur (or the window is
empty): the most recent frameCount provider frames are selected. -/
theorem mergeFramesToAddCode_fallback (st : CardFrames) (allFrames : List Frame)
    (frameCount : ℕ)
    (habsent : ∀ last, st.radarFrames.getLast? = some last →
      ∀ f ∈ allFrames, f.id ≠ last.id) :
    mergeFramesToAddCode st allFrames frameCount =
      allFrames.drop (allFrames.length - frameCount) := by
  unfold mergeFramesToAddCode
  cases hlast : st.radarFrames.getLast? with
  | none => rfl
  | some last =>
    dsimp only
    rw [List.findIdx?_eq_none_iff.mpr
      (fun x hx => by simpa using habsent last hlast x hx)]

/-- mergeNewFrames in terms of the selected framesToAdd list. -/
theorem mergeNewFrames_of_framesToAdd (st : CardFrames) (allFrames : List Frame)
    (frameCount : ℕ) (fta : List Frame)
    (hsel : mergeFramesToAddCode st allFrames frameCount = fta) :
    mergeNewFrames st allFrames frameCount =
      if fta.isEmpty then st
      else
        ⟨(st.radarFrames ++ fta).drop
           (st.radarFrames.length + fta.length - frameCount),
         (st.layerIds ++ fta.map Frame.id).drop
           (st.radarFrames.length + fta.length - frameCount),
         if 0 < ((st.radarFrames ++ fta).drop
             (st.radarFrames.length + fta.length - frameCount)).length then
           ((st.radarFrames ++ fta).drop
             (st.radarFrames.length + fta.length - frameCount)).length - 1
         else 0⟩ := by
  unfold mergeNewFrames
  rw [hsel]
  by_cases hempty : fta.isEmpty
  · rw [if_pos hempty, if_pos hempty]
  · rw [if_neg hempty, if_neg hempty]
    simp only [foldl_addFrame, evictLoop_spec]
    rw [List.length_append]

theorem string_eq_empty_of_length_eq_zero {s : String} (h : s.length = 0) :
    s = "" := by
  cases s with
  | mk data =>
    simp [String.length] at h
    simp [h]

/-- Sample frames for concrete witnesses and counterexamples. -/
def frameA : Frame := ⟨"a", "ta", "pa"⟩

def frameB : Frame := ⟨"b", "tb", "pb"⟩

/-! ## Claim theorems -/

/-- C1: Grid reconciler postcondition — for every viewer tile whose zoom has
a tile-matrix entry, the produced provider tiles are exactly the (col, row)
pairs inside the clipped floor ranges of the spec, each carrying the spec's
rounded pixel offsets; a zoom without a matrix entry produces the empty
list; the function is total so no input is an error. -/
theorem claim_C1_grid_reconciler (matrices : ℕ → Option TileMatrixEntry)
    (z : ℕ) (x y : ℤ) :
    (matrices z = none → createTile matrices z x y = []) ∧
    (∀ tm, matrices z = some tm → ∀ p : ProviderTile,
      p ∈ createTile matrices z x y ↔
        (max 0 ⌊((-EARTH_HALF_CIRCUMFERENCE + (x : ℚ) * getTileSpan z) - tm.originX) / getTileSpan z⌋ ≤ p.col ∧
         p.col ≤ min (tm.cols - 1) ⌊((-EARTH_HALF_CIRCUMFERENCE + (x : ℚ) * getTileSpan z + getTileSpan z) - tm.originX - 1/100) / getTileSpan z⌋ ∧
         max 0 ⌊(tm.originY - (EARTH_HALF_CIRCUMFERENCE - (y : ℚ) * getTileSpan z)) / getTileSpan z⌋ ≤ p.row ∧
         p.row ≤ min (tm.rows - 1) ⌊(tm.originY - (EARTH_HALF_CIRCUMFERENCE - (y : ℚ) * getTileSpan z - getTileSpan z) - 1/100) / getTileSpan z⌋ ∧
         p.offsetX = round (((tm.originX + (p.col : ℚ) * getTileSpan z) - (-EARTH_HALF_CIRCUMFERENCE + (x : ℚ) * getTileSpan z)) / getTileSpan z * 256) ∧
         p.offsetY = round (((EARTH_HALF_CIRCUMFERENCE - (y : ℚ) * getTileSpan z) - (tm.originY - (p.row : ℚ) * getTileSpan z)) / getTileSpan z * 256))) :=
  ⟨createTile_none matrices z x y,
   fun tm h p => mem_createTile matrices z x y tm h p⟩

/-- C1 witness: zoom 9 has no matrix entry and yields the empty list. -/
theorem claim_C1_witness :
    BOM_TILE_MATRICES 9 = none ∧ createTile BOM_TILE_MATRICES 9 0 0 = [] :=
  ⟨rfl, (claim_C1_grid_reconciler BOM_TILE_MATRICES 9 0 0).1 rfl⟩

/-- C2 counterexample: merging a snapshot whose newest id equals the
window's newest id appends nothing, and the early return leaves
visibleIndex at 0 instead of resetting it to the last index 1. -/
theorem claim_C2_counterexample :
    mergeNewFrames ⟨[frameA, frameB], ["a", "b"], 0⟩ [frameA, frameB] 2 =
      ⟨[frameA, frameB], ["a", "b"], 0⟩ ∧
    (0 : ℕ) ≠ ([frameA, frameB] : List Frame).length - 1 := by
  constructor
  · decide
  · decide

/-- C2 (amended): mergeAppend contract — the frames strictly after the first
occurrence of the window's newest id (or the most recent frameCount frames
when the id is absent) are appended; when nothing is appended the call
returns the window unchanged, visibleIndex included; otherwise the window is
trimmed from the front to capacity and visibleIndex is reset to the last
index; adding one frame to a window at capacity keeps the length at
capacity with visibleIndex at capacity - 1. -/
theorem claim_C2_merge_contract (st : CardFrames) (allFrames : List Frame)
    (frameCount : ℕ) (fta : List Frame)
    (hsel :
      (∃ last pre w post, st.radarFrames.getLast? = some last ∧
        allFrames = pre ++ w :: post ∧ w.id = last.id ∧
        (∀ f ∈ pre, f.id ≠ last.id) ∧ fta = post) ∨
      ((∀ last, st.radarFrames.getLast? = some last →
          ∀ f ∈ allFrames, f.id ≠ last.id) ∧
        fta = allFrames.drop (allFrames.length - frameCount))) :
    (fta = [] → mergeNewFrames st allFrames frameCount = st) ∧
    (fta ≠ [] →
      (mergeNewFrames st allFrames frameCount).radarFrames =
        (st.radarFrames ++ fta).drop
          (st.radarFrames.length + fta.length - frameCount) ∧
      (mergeNewFrames st allFrames frameCount).radarFrames.length =
        min (st.radarFrames.length + fta.length) frameCount ∧
      (mergeNewFrames st allFrames frameCount).frameIndex =
        (mergeNewFrames st allFrames frameCount).radarFrames.length - 1) ∧
    (st.radarFrames.length = frameCount → fta.length = 1 →
      (mergeNewFrames st allFrames frameCount).radarFrames.length = frameCount ∧
      (mergeNewFrames st allFrames frameCount).frameIndex = frameCount - 1) := by
  have hcode : mergeFramesToAddCode st allFrames frameCount = fta := by
    rcases hsel with ⟨last, pre, w, post, h1, rfl, h3, h4, rfl⟩ | ⟨h1, rfl⟩
    · exact mergeFramesToAddCode_found st frameCount last h1 pre w fta h3 h4
    · exact mergeFramesToAddCode_fallback st allFrames frameCount h1
  have hmrg := mergeNewFrames_of_framesToAdd st allFrames frameCount fta hcode
  refine ⟨?_, ?_, ?_⟩
  · intro hnil
    subst hnil
    simpa using hmrg
  · intro hne
    rw [hmrg, if_neg (by simpa [List.isEmpty_iff] using hne)]
    dsimp only
    refine ⟨rfl, ?_, ?_⟩
    · rw [List.length_drop, List.length_append]
      omega
    · rw [List.length_drop, List.length_append]
      by_cases hpos :
        0 < st.radarFrames.length + fta.length -
          (st.radarFrames.length + fta.length - frameCount)
      · rw [if_pos hpos]
      · rw [if_neg hpos]
        omega
  · intro hcap hone
    have hne : fta ≠ [] := by
      intro hnil
      rw [hnil] at hone
      simp at hone
    rw [hmrg, if_neg (by simpa [List.isEmpty_iff] using hne)]
    dsimp only
    constructor
    · rw [List.length_drop, List.length_append]
      omega
    · rw [List.length_drop, List.length_append]
      by_cases hpos :
        0 < st.radarFrames.length + fta.length -
          (st.radarFrames.length + fta.length - frameCount)
      · rw [if_pos hpos]
        omega
      · rw [if_neg hpos]
        omega

/-- C2 witness: appending one genuinely new frame to a one-frame window at
capacity 1 trims the old frame and lands on the last index. -/
theorem claim_C2_witness :
    (mergeNewFrames ⟨[frameA], ["a"], 0⟩ [frameA, frameB] 1).radarFrames =
      (([frameA] : List Frame) ++ [frameB]).drop 1 := by
  refine ((claim_C2_merge_contract (⟨[frameA], ["a"], 0⟩ : CardFrames)
      [frameA, frameB] 1 [frameB] ?_).2.1 (by simp)).1
  exact Or.inl ⟨frameA, [], frameA, [frameB], rfl, rfl, rfl, by simp, rfl⟩

/-- C3: playback advance — with at least two frames a timer fire moves
visibleIndex to (visibleIndex + 1) mod length and arms restartDelay exactly
on the last index and frameDelay otherwise; with at most one frame no timer
is armed; in a three-frame window started at index 0 three advances return
to 0 with restartDelay armed only after reaching index 2. -/
theorem claim_C3_playback (cfg : CardConfig) (st : CardFrames) :
    (2 ≤ st.radarFrames.length →
      (advanceFrame cfg st).1.frameIndex =
        (st.frameIndex + 1) % st.radarFrames.length ∧
      (advanceFrame cfg st).1.radarFrames = st.radarFrames ∧
      (advanceFrame cfg st).2 =
        some (if (st.frameIndex + 1) % st.radarFrames.length =
            st.radarFrames.length - 1 then
          cfg.restart_delay.getD 1000 else cfg.frame_delay.getD 250)) ∧
    (st.radarFrames.length ≤ 1 → (advanceFrame cfg st).2 = none) ∧
    (∀ f1 f2 f3 : Frame, ∀ ids : List String,
      (advanceFrame cfg ⟨[f1, f2, f3], ids, 0⟩).1.frameIndex = 1 ∧
      (advanceFrame cfg ⟨[f1, f2, f3], ids, 0⟩).2 =
        some (cfg.frame_delay.getD 250) ∧
      (advanceFrame cfg ⟨[f1, f2, f3], ids, 1⟩).1.frameIndex = 2 ∧
      (advanceFrame cfg ⟨[f1, f2, f3], ids, 1⟩).2 =
        some (cfg.restart_delay.getD 1000) ∧
      (advanceFrame cfg ⟨[f1, f2, f3], ids, 2⟩).1.frameIndex = 0 ∧
      (advanceFrame cfg ⟨[f1, f2, f3], ids, 2⟩).2 =
        some (cfg.frame_delay.getD 250)) := by
  refine ⟨?_, ?_, ?_⟩
  · intro h2
    unfold advanceFrame
    rw [if_neg (by omega)]
    dsimp only
    refine ⟨rfl, rfl, ?_⟩
    unfold scheduleNextFrame
    rw [if_neg (by omega)]
  · intro h1
    unfold advanceFrame
    by_cases h0 : st.radarFrames.length = 0
    · rw [if_pos h0]
    · rw [if_neg h0]
      dsimp only
      unfold scheduleNextFrame
      rw [if_pos (by omega)]
  · intro f1 f2 f3 ids
    refine ⟨?_, ?_, ?_, ?_, ?_, ?_⟩ <;>
      simp [advanceFrame, scheduleNextFrame]

/-- C3 witness: a concrete two-frame window advances from 0 to 1 and arms
the restart delay there. -/
theorem claim_C3_witness :
    (advanceFrame {} ⟨[frameA, frameB], ["a", "b"], 0⟩).1.frameIndex =
      (0 + 1) % 2 :=
  ((claim_C3_playback {}
      (⟨[frameA, frameB], ["a", "b"], 0⟩ : CardFrames)).1 (by decide)).1

/-- C4 counterexample: BOM's own 1×1 matrix at zoom 0 yields for viewer tile
(0,0) the provider tile with pixel offset (202, -90), whose vertical offset
is negative, outside the claimed [0, 256). -/
theorem claim_C4_counterexample :
    (⟨0, 0, 202, -90⟩ : ProviderTile) ∈ createTile BOM_TILE_MATRICES 0 0 0 ∧
    ¬(0 ≤ (-90 : ℤ)) :=
  ⟨bom00_mem, by decide⟩

/-- C4 (amended): for every 1×1 matrix entry every viewer tile yields zero
or exactly one provider tile, and a yielded pixel offset lies within
[-256, 256] on each axis (it can be negative when the provider tile's
origin lies left of or above the viewer tile). -/
theorem claim_C4_one_by_one (matrices : ℕ → Option TileMatrixEntry)
    (z : ℕ) (x y : ℤ) (tm : TileMatrixEntry) (h : matrices z = some tm)
    (hc : tm.cols = 1) (hr : tm.rows = 1) :
    (createTile matrices z x y).length ≤ 1 ∧
    ∀ p ∈ createTile matrices z x y,
      (-256 ≤ p.offsetX ∧ p.offsetX ≤ 256) ∧
      (-256 ≤ p.offsetY ∧ p.offsetY ≤ 256) :=
  createTile_one_by_one matrices z x y tm h hc hr

/-- C4 witness: the BOM zoom-0 matrix is 1×1 and viewer tile (0,0) yields
at most one provider tile. -/
theorem claim_C4_witness :
    BOM_TILE_MATRICES 0 = some ⟨11584952, 34168990685578/1000000, 1, 1⟩ ∧
    (createTile BOM_TILE_MATRICES 0 0 0).length ≤ 1 :=
  ⟨rfl, (claim_C4_one_by_one BOM_TILE_MATRICES 0 0 0
      ⟨11584952, 34168990685578/1000000, 1, 1⟩ rfl rfl rfl).1⟩

/-- C5: the TIME value the card formats for 2024-01-01T10:20Z carries an
explicit seconds field (":00"), so it is not the no-seconds form the claim
and the function's own doc comment describe; the instant is nevertheless a
whole multiple of the 5-minute publication interval and the string does
appear among the generated request timestamps. -/
theorem claim_C5_time_format :
    formatWmtsTimestamp 1704104400000 = "2024-01-01T10:20:00Z" ∧
    "2024-01-01T10:20:00Z" ≠ "2024-01-01T10:20Z" ∧
    "2024-01-01T10:20:00Z" ∈ getRadarCapabilitiesTimestamps 1704105000000 12 ∧
    (1704104400000 : ℤ).emod 300000 = 0 := by
  refine ⟨by decide, by decide, by decide, by decide⟩

/-- C6 counterexample: scheduleRetry increments the retry counter with no
upper clamp, so no bound dominates the counter across repeated failures. -/
theorem claim_C6_counterexample :
    ¬ ∃ bound : ℕ, ∀ k : ℕ,
      (fun n => (scheduleRetry n).2)^[k] 0 ≤ bound := by
  rintro ⟨bound, h⟩
  have hiter : ∀ k : ℕ, (fun n => (scheduleRetry n).2)^[k] 0 = k := by
    intro k
    induction k with
    | zero => rfl
    | succ n ih =>
      rw [Function.iterate_succ_apply', ih]
      rfl
  have hb := h (bound + 1)
  rw [hiter] at hb
  omega

/-- C6 (amended): the armed retry delay is min(5000 · 2^n, 60000) — 5000 at
n = 0, 10000 at n = 1, 60000 for every n ≥ 4 — and each failure increments
the retry counter by one without a clamp; the delay, not the counter, is
what stays bounded. -/
theorem claim_C6_retry_delay (n : ℕ) :
    getRetryDelayMs n = min (5000 * 2 ^ n) 60000 ∧
    getRetryDelayMs 0 = 5000 ∧
    getRetryDelayMs 1 = 10000 ∧
    (4 ≤ n → getRetryDelayMs n = 60000) ∧
    scheduleRetry n = (getRetryDelayMs n, n + 1) := by
  refine ⟨rfl, by decide, by decide, ?_, rfl⟩
  intro h4
  unfold getRetryDelayMs
  refine min_eq_right ?_
  have h16 : (16 : ℤ) ≤ 2 ^ n := by
    calc (16 : ℤ) = 2 ^ 4 := by norm_num
      _ ≤ 2 ^ n := pow_le_pow_right (by norm_num) h4
  nlinarith

/-- C6 witness: ten prior failures arm the capped 60000 ms delay. -/
theorem claim_C6_witness : getRetryDelayMs 10 = 60000 :=
  (claim_C6_retry_delay 10).2.2.2.1 (by decide)

/-- C7: merge idempotence — when the window's newest id equals the newest
provider id and provider ids are unique (the FrameDescriptor invariant),
mergeAppend leaves the window untouched, and a second call with the same
snapshot is also the identity, so no duplicate ids appear. -/
theorem claim_C7_merge_idempotent (st : CardFrames) (pre : List Frame)
    (w last : Frame) (frameCount : ℕ)
    (hlast : st.radarFrames.getLast? = some last)
    (hw : w.id = last.id)
    (hnd : ((pre ++ [w]).map Frame.id).Nodup) :
    mergeNewFrames st (pre ++ [w]) frameCount = st ∧
    mergeNewFrames (mergeNewFrames st (pre ++ [w]) frameCount)
      (pre ++ [w]) frameCount = st := by
  have hpre : ∀ f ∈ pre, f.id ≠ last.id := by
    intro f hf heq
    rw [List.map_append, List.nodup_append] at hnd
    have hdisj := hnd.2.2
    exact hdisj (List.mem_map_of_mem Frame.id hf) (by simp [heq, hw])
  have hfta : mergeFramesToAddCode st (pre ++ [w]) frameCount = [] :=
    mergeFramesToAddCode_found st frameCount last hlast pre w [] hw hpre
  have h1 : mergeNewFrames st (pre ++ [w]) frameCount = st := by
    rw [mergeNewFrames_of_framesToAdd st (pre ++ [w]) frameCount [] hfta]
    rfl
  refine ⟨h1, by rw [h1, h1]⟩

/-- C7 witness: re-merging the snapshot [a] into the window holding a is the
identity. -/
theorem claim_C7_witness :
    mergeNewFrames ⟨[frameA], ["a"], 0⟩ [frameA] 7 = ⟨[frameA], ["a"], 0⟩ :=
  (claim_C7_merge_idempotent (⟨[frameA], ["a"], 0⟩ : CardFrames) []
    frameA frameA 7 rfl rfl (by simp)).1

/-- C8: next-poll scheduling — the delay is
max(latest + 10 min + 15 s - now, 5000); at now = latest it is exactly the
publication interval plus safety margin (615000 ms), and once now is at
least latest + 610000 the 5000 ms floor is armed. -/
theorem claim_C8_next_poll (latestTimeMs nowMs : ℤ) :
    getNextSnapshotDelayMs latestTimeMs nowMs =
      max (latestTimeMs + 10 * 60 * 1000 + 15 * 1000 - nowMs) 5000 ∧
    getNextSnapshotDelayMs latestTimeMs latestTimeMs = 615000 ∧
    (latestTimeMs + 610000 ≤ nowMs →
      getNextSnapshotDelayMs latestTimeMs nowMs = 5000) := by
  refine ⟨rfl, ?_, ?_⟩
  · unfold getNextSnapshotDelayMs
    have harg : latestTimeMs + 10 * 60 * 1000 + 15 * 1000 - latestTimeMs =
        615000 := by ring
    rw [harg]
    decide
  · intro h
    unfold getNextSnapshotDelayMs
    exact max_eq_right (by omega)

/-- C8 witness: at latest = 0, now = 700000 the floor delay 5000 is armed. -/
theorem claim_C8_witness : getNextSnapshotDelayMs 0 700000 = 5000 :=
  (claim_C8_next_poll 0 700000).2.2 (by decide)

/-- C9: atomicity on poll failure — whenever the fetch step fails (rejected
fetch, non-ok response, or zero frames, each of which produces an error) the
refresh leaves frames, visibleIndex and host untouched, increments the retry
counter, and arms a retry with the current backoff delay. -/
theorem claim_C9_failure_atomic (cfg : CardConfig) (st : CardState)
    (outcome : FetchOutcome) (resetFrames : Bool) (nowMs : ℤ) (e : String)
    (hfail : fetchRadarSnapshot outcome = .error e) :
    (refreshRadarSnapshot cfg st outcome resetFrames nowMs).1.frames =
      st.frames ∧
    (refreshRadarSnapshot cfg st outcome resetFrames nowMs).1.radarHost =
      st.radarHost ∧
    (refreshRadarSnapshot cfg st outcome resetFrames nowMs).1.retryCount =
      st.retryCount + 1 ∧
    (refreshRadarSnapshot cfg st outcome resetFrames nowMs).2 =
      RefreshEffect.armRetry (getRetryDelayMs st.retryCount) ∧
    (∀ status data, fetchRadarSnapshot (.response false status data) =
      .error ("RainViewer API returned " ++ toString status)) ∧
    (∀ host, fetchRadarSnapshot
        (.response true 200 ⟨host, some ⟨some []⟩⟩) =
      .error "No radar frames available") ∧
    fetchRadarSnapshot .reject = .error "fetch rejected" := by
  refine ⟨?_, ?_, ?_, ?_, fun status data => rfl, fun host => rfl, rfl⟩
  all_goals unfold refreshRadarSnapshot
  all_goals rw [hfail]
  all_goals rfl

/-- C9 witness: a rejected fetch against a populated window changes nothing
but the retry counter. -/
theorem claim_C9_witness :
    (refreshRadarSnapshot {} ⟨⟨[frameA], ["a"], 0⟩, 2, "h"⟩
        FetchOutcome.reject false 0).1.frames = ⟨[frameA], ["a"], 0⟩ :=
  (claim_C9_failure_atomic {} (⟨⟨[frameA], ["a"], 0⟩, 2, "h"⟩ : CardState)
    FetchOutcome.reject false 0 "fetch rejected" rfl).1

/-- C10 counterexample: overlay_transparency is clamped but not rounded —
input 1/2 normalizes to 1/2, while round-then-clamp would give 1. -/
theorem claim_C10_counterexample :
    (normalizeConfig
        { entity := some "device_tracker.x",
          overlay_transparency := some (1/2) } {}).toOption.map
      BomRasterRadarCardConfig.overlay_transparency = some (1/2) ∧
    clamp ((round ((1 : ℚ)/2) : ℤ) : ℚ) 0 90 = 1 ∧
    ((1 : ℚ)/2) ≠ 1 := by
  refine ⟨?_, ?_, by norm_num⟩
  · simp only [normalizeConfig, sanitizeEntity, toFiniteNumber,
      sanitizeMapStyle, Option.getD]
    norm_num [clamp, max_def, min_def]
    exact ⟨_, rfl, rfl⟩
  · norm_num [clamp, round_eq, max_def, min_def]

/-- C10 (amended): normalizeConfig clamps zoom_level to [3,10] (default 8),
frame_count to [1,24] (default 7), frame_delay to [100,5000] (default 250)
and restart_delay to [100,10000] (default 1000), each rounded then clamped;
overlay_transparency is clamped to [0,90] (default 0) without rounding;
missing or non-finite numeric inputs take the default; the call throws
exactly when requireEntity is set and the trimmed entity is empty. -/
theorem claim_C10_normalize (config : RawConfig)
    (options : NormalizeConfigOptions) :
    ((∃ err, normalizeConfig config options = Except.error err) ↔
      (options.requireEntity = true ∧ sanitizeEntity config.entity = "")) ∧
    (∀ out, normalizeConfig config options = .ok out →
      out.type = CARD_TYPE ∧
      out.entity = sanitizeEntity config.entity ∧
      (3 ≤ out.zoom_level ∧ out.zoom_level ≤ 10) ∧
      (config.zoom_level = none → out.zoom_level = 8) ∧
      (∀ q, config.zoom_level = some q →
        out.zoom_level = clamp ((round q : ℤ) : ℚ) 3 10) ∧
      (1 ≤ out.frame_count ∧ out.frame_count ≤ 24) ∧
      (config.frame_count = none → out.frame_count = 7) ∧
      (∀ q, config.frame_count = some q →
        out.frame_count = clamp ((round q : ℤ) : ℚ) 1 24) ∧
      (100 ≤ out.frame_delay ∧ out.frame_delay ≤ 5000) ∧
      (config.frame_delay = none → out.frame_delay = 250) ∧
      (∀ q, config.frame_delay = some q →
        out.frame_delay = clamp ((round q : ℤ) : ℚ) 100 5000) ∧
      (100 ≤ out.restart_delay ∧ out.restart_delay ≤ 10000) ∧
      (config.restart_delay = none → out.restart_delay = 1000) ∧
      (∀ q, config.restart_delay = some q →
        out.restart_delay = clamp ((round q : ℤ) : ℚ) 100 10000) ∧
      (0 ≤ out.overlay_transparency ∧ out.overlay_transparency ≤ 90) ∧
      (config.overlay_transparency = none → out.overlay_transparency = 0) ∧
      (∀ q, config.overlay_transparency = some q →
        out.overlay_transparency = clamp q 0 90)) := by
  have hclamp : ∀ v lo hi : ℚ, lo ≤ hi →
      lo ≤ clamp v lo hi ∧ clamp v lo hi ≤ hi := by
    intro v lo hi hle
    unfold clamp
    exact ⟨le_min hle (le_max_left lo v), min_le_left hi _⟩
  unfold normalizeConfig
  by_cases hcond :
      options.requireEntity && (sanitizeEntity config.entity).length == 0
  · rw [if_pos hcond]
    constructor
    · simp only [Bool.and_eq_true, beq_iff_eq] at hcond
      constructor
      · intro
        exact ⟨hcond.1, string_eq_empty_of_length_eq_zero hcond.2⟩
      · intro
        exact ⟨_, rfl⟩
    · intro out hout
      exact absurd hout (by simp)
  · rw [if_neg hcond]
    constructor
    · constructor
      · rintro ⟨err, habs⟩
        simp at habs
      · rintro ⟨h1, h2⟩
        refine absurd ?_ hcond
        rw [Bool.and_eq_true, beq_iff_eq, h1, h2]
        exact ⟨rfl, rfl⟩
    · intro out hout
      rw [Except.ok.injEq] at hout
      subst hout
      refine ⟨rfl, rfl, ?_, ?_, ?_, ?_, ?_, ?_, ?_, ?_, ?_, ?_, ?_, ?_,
        ?_, ?_, ?_⟩
      · cases hz : config.zoom_level with
        | none =>
          simp only [toFiniteNumber, hz]
          norm_num
        | some q =>
          simp only [toFiniteNumber, hz]
          exact hclamp _ 3 10 (by norm_num)
      · intro h
        simp [toFiniteNumber, h]
      · intro q h
        simp [toFiniteNumber, h]
      · cases hz : config.frame_count with
        | none =>
          simp only [toFiniteNumber, hz]
          norm_num
        | some q =>
          simp only [toFiniteNumber, hz]
          exact hclamp _ 1 24 (by norm_num)
      · intro h
        simp [toFiniteNumber, h]
      · intro q h
        simp [toFiniteNumber, h]
      · cases hz : config.frame_delay with
        | none =>
          simp only [toFiniteNumber, hz]
          norm_num
        | some q =>
          simp only [toFiniteNumber, hz]
          exact hclamp _ 100 5000 (by norm_num)
      · intro h
        simp [toFiniteNumber, h]
      · intro q h
        simp [toFiniteNumber, h]
      · cases hz : config.restart_delay with
        | none =>
          simp only [toFiniteNumber, hz]
          norm_num
        | some q =>
          simp only [toFiniteNumber, hz]
          exact hclamp _ 100 10000 (by norm_num)
      · intro h
        simp [toFiniteNumber, h]
      · intro q h
        simp [toFiniteNumber, h]
      · cases hz : config.overlay_transparency with
        | none =>
          simp only [toFiniteNumber, hz]
          norm_num
        | some q =>
          simp only [toFiniteNumber, hz]
          exact hclamp _ 0 90 (by norm_num)
      · intro h
        simp [toFiniteNumber, h]
      · intro q h
        simp [toFiniteNumber, h]

/-- C10 witness: a plain entity-only config normalizes with every default in
range. -/
theorem claim_C10_witness :
    normalizeConfig { entity := some "device_tracker.x" } {} =
      Except.ok ⟨CARD_TYPE, "device_tracker.x", none, false, "Light", 8,
        true, true, true, true, 7, 250, 1000, 0⟩ ∧
    (3 : ℚ) ≤ 8 ∧ (8 : ℚ) ≤ 10 := by
  have hok : normalizeConfig { entity := some "device_tracker.x" } {} =
      Except.ok ⟨CARD_TYPE, "device_tracker.x", none, false, "Light", 8,
        true, true, true, true, 7, 250, 1000, 0⟩ := by
    rfl
  refine ⟨hok, ?_⟩
  have := ((claim_C10_normalize { entity := some "device_tracker.x" } {}).2
    _ hok).2.2.1
  simpa using this

end BomRadar
